import Mathlib

/-!
Verification of the batch-job status monitor (cmd/batch-status: command
`batch status`, function mainBatchStatus and the bubbletea model
batchJobMetricsUI) against its specification.

Shallow embedding conventions:
* Timestamps and durations are integers counting nanoseconds, matching Go's
  time.Time/time.Duration arithmetic used in the file (LastUpdate.Sub(StartTime)
  is an int64 nanosecond count).
* The admin-API structures (madmin.RealtimeMetrics, madmin.JobMetric,
  madmin.ReplicateInfo) are embedded field-for-field for the fields the
  monitor reads; the Jobs map is an association list with Go's map lookup
  embedded as List.lookup.
* The bubbles spinner is an external dependency; it is modelled as its
  observable state: a fixed frame list and a cyclic frame counter, exactly
  what spinner.Update advances and spinner.View reads.
* View writes its output into a strings.Builder through tablewriter; the
  embedding captures the rendered content as a ViewOutput value: the header
  glyph written before the table, the (label, value) rows appended via
  addLine in order, and whether the trailing blank line is written. The
  final string is a fixed injective-on-structure rendering of this value,
  so two states display the same content iff their ViewOutput values agree,
  except that numeric cells are carried as exact numbers where the Go code
  prints a formatted decimal (the formatting is a function of the number).
-/

/-- Replication counters of a job metric (madmin.ReplicateInfo): the fields
read by the monitor. Counters are int64 in Go; overflow never occurs in the
expressions the monitor computes at the values the claims concern, and Go
int64 arithmetic on in-range values is integer arithmetic, so Int is used. -/
structure ReplicateInfo where
  Object : String
  Objects : Int
  ObjectsFailed : Int
  BytesTransferred : Int
deriving DecidableEq, Repr

/-- One job's metric snapshot (madmin.JobMetric): the fields read by the
monitor. StartTime and LastUpdate are nanosecond timestamps. -/
structure JobMetric where
  JobType : String
  StartTime : Int
  LastUpdate : Int
  Complete : Bool
  Failed : Bool
  Replicate : ReplicateInfo
deriving DecidableEq, Repr

/-- Aggregated batch-job metrics (madmin.BatchJobMetrics): the per-job map,
embedded as an association list keyed by job id. -/
structure BatchJobMetrics where
  Jobs : List (String × JobMetric)
deriving DecidableEq, Repr

/-- The aggregated section of a metrics envelope (madmin.AggregatedMetrics):
only the BatchJobs pointer is read, nil embedded as none. -/
structure AggregatedMetrics where
  BatchJobs : Option BatchJobMetrics
deriving DecidableEq, Repr

/-- A feed envelope (madmin.RealtimeMetrics) as read by the monitor. -/
structure RealtimeMetrics where
  Aggregated : AggregatedMetrics
deriving DecidableEq, Repr

/-- The structured record printed per tick in JSON mode:
printMsg(metricsMessage{RealtimeMetrics: metrics}) wraps the whole envelope. -/
structure MetricsMessage where
  RealtimeMetrics : RealtimeMetrics
deriving DecidableEq, Repr

/-- The job-type tag the View switches on: string(madmin.BatchJobReplicate). -/
def batchJobReplicate : String := "replicate"

/-- Looking the target job id up through an envelope: nil aggregation or a
missing key both yield none. (Composition of the two checks the callback and
Update both perform, lines 110-119 and 180-189.) -/
def lookupTickJob (jobID : String) (metrics : RealtimeMetrics) : Option JobMetric :=
  match metrics.Aggregated.BatchJobs with
  | none => none
  | some bj => bj.Jobs.lookup jobID

/-- One invocation of the JSON-mode delivery callback passed to
client.Metrics (mainBatchStatus, lines 109-125): returns the record printed
by printMsg (if any) and whether cancel() was called during the invocation. -/
def batchStatusCallback (jobID : String) (metrics : RealtimeMetrics) :
    Option MetricsMessage × Bool :=
  match metrics.Aggregated.BatchJobs with
  | none => (none, true)
  | some bj =>
    match bj.Jobs.lookup jobID with
    | none => (none, true)
    | some job => (some ⟨metrics⟩, job.Complete || job.Failed)

/-- The feed loop in JSON mode: client.Metrics invokes the callback once per
tick, in tick order, and stops delivering once the context has been
cancelled. Returns the sequence of records printed. -/
def runStructuredFeed (jobID : String) : List RealtimeMetrics → List MetricsMessage
  | [] => []
  | t :: ts =>
    let r := batchStatusCallback jobID t
    (r.fst.toList) ++ (if r.snd then [] else runStructuredFeed jobID ts)

/-- The structured-emitter behaviour exactly as the spec words it: one record
per tick, in tick order, up to and including the first tick whose snapshot
has complete or failed set, no record after that; a tick whose envelope lacks
the batch-jobs aggregation or whose mapping lacks the job id produces no
record and terminates the emission. -/
def specStructuredEmit (jobID : String) : List RealtimeMetrics → List MetricsMessage
  | [] => []
  | t :: ts =>
    match lookupTickJob jobID t with
    | none => []
    | some job =>
      if job.Complete || job.Failed then [⟨t⟩]
      else ⟨t⟩ :: specStructuredEmit jobID ts

/-- Model of the external bubbles spinner (spinner.Model): its observable
state is a fixed frame list (spinner.Points for this UI) with a cyclic frame
counter; the style only affects colouring and is constant, so it is omitted
from the state. -/
structure SpinnerModel where
  frames : List String
  frame : Nat
deriving DecidableEq, Repr

/-- spinner.Update on a tick: advance the frame cyclically (the bubbles code
increments and wraps to zero at the end of the frame list). -/
def SpinnerModel.updateTick (s : SpinnerModel) : SpinnerModel :=
  { s with frame := if s.frame + 1 ≥ s.frames.length then 0 else s.frame + 1 }

/-- spinner.View: the glyph of the current frame. -/
def SpinnerModel.viewFrame (s : SpinnerModel) : String :=
  s.frames.getD s.frame ""

/-- The interactive renderer state (struct batchJobMetricsUI). -/
structure BatchJobMetricsUI where
  current : JobMetric
  spinner : SpinnerModel
  quitting : Bool
  jobID : String
deriving DecidableEq, Repr

/-- The message classes Update switches on: key presses (tea.KeyMsg, carried
as msg.String()), metric envelopes (madmin.RealtimeMetrics), spinner ticks
(spinner.TickMsg), and every other message (the default branch). -/
inductive TeaMsg
  | key (s : String)
  | metrics (m : RealtimeMetrics)
  | spinnerTick
  | other
deriving DecidableEq, Repr

/-- The commands Update can return; a Go nil tea.Cmd is none. -/
inductive TeaCmd
  | quit
  | spinTick
deriving DecidableEq, Repr

/-- batchJobMetricsUI.Update (lines 168-204), embedded as a pure transition:
the Go method mutates the receiver and returns it with a command; here the
updated state is returned with the command. -/
def BatchJobMetricsUI.update (m : BatchJobMetricsUI) (msg : TeaMsg) :
    BatchJobMetricsUI × Option TeaCmd :=
  match msg with
  | .key s =>
    if s = "ctrl+c" then ({ m with quitting := true }, some .quit)
    else (m, none)
  | .metrics mt =>
    match mt.Aggregated.BatchJobs with
    | none => ({ m with quitting := true }, some .quit)
    | some bj =>
      match bj.Jobs.lookup m.jobID with
      | none => ({ m with quitting := true }, some .quit)
      | some job =>
        if job.Complete || job.Failed then
          ({ m with current := job, quitting := true }, some .quit)
        else
          ({ m with current := job }, none)
  | .spinnerTick => ({ m with spinner := m.spinner.updateTick }, some .spinTick)
  | .other => (m, none)

/-- What View writes before the table: the spinner frame while running,
tickCell or crossTickCell tripled once quitting, or nothing (quitting with
neither terminal flag set). -/
inductive HeaderGlyph
  | spin (frame : String)
  | success
  | failure
  | empty
deriving DecidableEq, Repr

/-- A table cell value as handed to addLine. String-valued cells are carried
verbatim; numeric cells are carried as the exact number the Go code formats
(int64 counters as Int; the float64 throughput quotients as the exact
rational they are computed from, the displayed text being a function of it). -/
inductive Cell
  | str (s : String)
  | int (n : Int)
  | rat (q : ℚ)
deriving DecidableEq, Repr

/-- The content View renders: header glyph, the (label, value) rows appended
via addLine in order, and the trailing blank line written once quitting. -/
structure ViewOutput where
  header : HeaderGlyph
  rows : List (String × Cell)
  trailingBlank : Bool
deriving DecidableEq, Repr

/-- batchJobMetricsUI.View (lines 206-268) as the ViewOutput it renders.
The replicate-case rows follow lines 246-258: note line 248 passes
m.current.Replicate.Objects for the Versions row. Throughput and IOPs rows
are appended only when accElapsedTime > 0; their values embed
float64(int64(time.Second)*x)/float64(accElapsedTime) with time.Second =
10^9 nanoseconds (exact rational; at the dyadic values the claims evaluate,
the float64 computation is exact and agrees). -/
def BatchJobMetricsUI.view (m : BatchJobMetricsUI) : ViewOutput :=
  let header : HeaderGlyph :=
    if !m.quitting then .spin m.spinner.viewFrame
    else if m.current.Complete then .success
    else if m.current.Failed then .failure
    else .empty
  let rows : List (String × Cell) :=
    if m.current.JobType = batchJobReplicate then
      let accElapsedTime : Int := m.current.LastUpdate - m.current.StartTime
      [("JobType: ", .str m.current.JobType),
       ("Objects: ", .int m.current.Replicate.Objects),
       ("Versions: ", .int m.current.Replicate.Objects),
       ("FailedObjects: ", .int m.current.Replicate.ObjectsFailed)] ++
      (if 0 < accElapsedTime then
        [("Throughput: ",
           .rat ((10 ^ 9 * m.current.Replicate.BytesTransferred : ℚ) / (accElapsedTime : ℚ))),
         ("IOPs: ",
           .rat ((10 ^ 9 * m.current.Replicate.Objects : ℚ) / (accElapsedTime : ℚ)))]
       else []) ++
      [("Transferred: ", .int m.current.Replicate.BytesTransferred),
       ("Elapsed: ", .int accElapsedTime),
       ("CurrObjName: ", .str m.current.Replicate.Object)]
    else []
  { header := header, rows := rows, trailingBlank := m.quitting }

/-- The outcome of the describe step of mainBatchStatus: either fatal abort
with the underlying error surfaced, or proceed to the subscription, recording
whether the informational notice was printed. -/
inductive ResolveOutcome
  | fatal (code : String)
  | proceed (noticeShown : Bool)
deriving DecidableEq, Repr

/-- madmin.ToErrorResponse(e).Code: a describe error is carried as its admin
error code (the empty string for nil errors and for errors that are not admin
error responses, matching the zero-value ErrorResponse Go returns). -/
def toErrorResponseCode : Option String → String
  | none => ""
  | some code => code

/-- The describe step of mainBatchStatus (lines 91-99): probe the job, treat
the XMinioAdminNoSuchJob code as non-fatal (clearing the error and printing
the notice only when globalJSON is unset), and let fatalIf abort on any
remaining error. -/
def resolveBatchJob (e : Option String) (globalJSON : Bool) : ResolveOutcome :=
  let nosuchJob := toErrorResponseCode e = "XMinioAdminNoSuchJob"
  let e2 := if nosuchJob then none else e
  match e2 with
  | some code => .fatal code
  | none => .proceed (nosuchJob && !globalJSON)

/-- A Go error value as errors.Is traverses it: context.Canceled itself, a
wrapper around another error, or any other leaf error. -/
inductive GoErr
  | canceled
  | wrap (e : GoErr)
  | plain (s : String)
deriving DecidableEq, Repr

/-- errors.Is(e, context.Canceled): unwraps the chain looking for the
canceled sentinel. -/
def errorsIsCanceled : GoErr → Bool
  | .canceled => true
  | .wrap e => errorsIsCanceled e
  | .plain _ => false

/-- Whether an error equals or wraps context.Canceled, as a proposition. -/
inductive IsCancellation : GoErr → Prop
  | canceled : IsCancellation .canceled
  | wrap {e : GoErr} : IsCancellation e → IsCancellation (.wrap e)

/-- The feed-error check of mainBatchStatus (lines 130-132): the goroutine
calls fatalIf exactly when the Metrics call returned a non-nil error that is
not context.Canceled. Returns true when the error is surfaced fatally. -/
def feedErrorFatal : Option GoErr → Bool
  | none => false
  | some e => !errorsIsCanceled e

/-- Concrete replication counters used to evaluate the theorems: 100 MiB
transferred, five objects, one failure. -/
def sampleReplicate : ReplicateInfo :=
  { Object := "obj-7", Objects := 5, ObjectsFailed := 1, BytesTransferred := 104857600 }

/-- A running replication job whose elapsed time is ten seconds. -/
def sampleJobRunning : JobMetric :=
  { JobType := "replicate", StartTime := 0, LastUpdate := 10 ^ 10,
    Complete := false, Failed := false, Replicate := sampleReplicate }

/-- The same job with the complete flag set. -/
def sampleJobComplete : JobMetric :=
  { sampleJobRunning with Complete := true }

/-- The same job with zero elapsed time (LastUpdate equals StartTime). -/
def sampleJobZeroElapsed : JobMetric :=
  { sampleJobRunning with LastUpdate := 0 }

/-- The same job carrying a job-type tag the View has no case for. -/
def sampleJobUnknown : JobMetric :=
  { sampleJobRunning with JobType := "expire" }

/-- A concrete spinner state. -/
def sampleSpinner : SpinnerModel :=
  { frames := ["f0", "f1", "f2"], frame := 0 }

/-- A renderer still polling the running job. -/
def sampleUIRunning : BatchJobMetricsUI :=
  { current := sampleJobRunning, spinner := sampleSpinner,
    quitting := false, jobID := "J1" }

/-- A renderer that has quit holding a completed snapshot. -/
def sampleUIQuitting : BatchJobMetricsUI :=
  { current := sampleJobComplete, spinner := sampleSpinner,
    quitting := true, jobID := "J1" }

/-- A renderer holding the zero-elapsed snapshot. -/
def sampleUIZeroElapsed : BatchJobMetricsUI :=
  { sampleUIRunning with current := sampleJobZeroElapsed }

/-- A renderer holding the unknown-job-type snapshot. -/
def sampleUIUnknown : BatchJobMetricsUI :=
  { sampleUIRunning with current := sampleJobUnknown }

/-- An envelope whose job mapping carries exactly the sample job under the
sample renderer's job id. -/
def sampleEnvelope (job : JobMetric) : RealtimeMetrics :=
  { Aggregated := { BatchJobs := some { Jobs := [("J1", job)] } } }

/-- C1: In structured (JSON) mode, the delivery loop emits exactly one
structured record per tick, in tick order, up to and including the first tick
whose snapshot has complete or failed set, and no record for any later tick;
a tick with no batch-jobs aggregation or without the job id emits no record
and terminates. Stated as: the code-side feed loop coincides with the
spec-side emission on every tick sequence. -/
theorem structured_mode_emits_one_record_per_tick_until_terminal
    (jobID : String) (ticks : List RealtimeMetrics) :
    runStructuredFeed jobID ticks = specStructuredEmit jobID ticks := by
  induction ticks with
  | nil => rfl
  | cons t ts ih =>
    obtain ⟨⟨bjs⟩⟩ := t
    simp only [runStructuredFeed, specStructuredEmit, batchStatusCallback, lookupTickJob]
    cases bjs with
    | none => rfl
    | some bj =>
      cases hj : bj.Jobs.lookup jobID with
      | none => simp [hj]
      | some job =>
        cases hc : job.Complete || job.Failed <;> simp [hj, hc, ih]

/-- Helper: no branch of Update clears an already-set quitting flag. -/
theorem update_keeps_quitting (m : BatchJobMetricsUI) (msg : TeaMsg)
    (h : m.quitting = true) : (m.update msg).1.quitting = true := by
  cases msg with
  | key s =>
    by_cases hs : s = "ctrl+c" <;> simp [BatchJobMetricsUI.update, hs, h]
  | metrics mt =>
    obtain ⟨⟨bjs⟩⟩ := mt
    cases bjs with
    | none => simp [BatchJobMetricsUI.update]
    | some bj =>
      cases hj : bj.Jobs.lookup m.jobID with
      | none => simp [BatchJobMetricsUI.update, hj]
      | some job =>
        cases hc : job.Complete || job.Failed <;>
          simp [BatchJobMetricsUI.update, hj, hc, h]
  | spinnerTick => simpa [BatchJobMetricsUI.update] using h
  | other => simpa [BatchJobMetricsUI.update] using h

/-- C2 (counterexample): the claim fails on the code. At a concrete state
that has already quit on a completed snapshot, processing a queued snapshot
message whose mapping still contains the job id overwrites m.current (Update
assigns it before testing the terminal flags), and the displayed content
changes: the success glyphs disappear because the replacing snapshot has
neither terminal flag set. -/
theorem quitting_snapshot_changes_display_counterexample :
    sampleUIQuitting.quitting = true ∧
    (sampleUIQuitting.update
        (TeaMsg.metrics (sampleEnvelope sampleJobRunning))).1.view ≠
      sampleUIQuitting.view := by
  refine ⟨rfl, ?_⟩
  decide

/-- C2 (amended): once quitting has become true, a subsequently processed
animation-tick message leaves the displayed content unchanged, and no
message of any class resets quitting; a snapshot message whose mapping
contains the job id may, however, replace the current snapshot and thereby
change the displayed content. -/
theorem quitting_display_frozen_amended (m : BatchJobMetricsUI) (msg : TeaMsg)
    (h : m.quitting = true) :
    (m.update TeaMsg.spinnerTick).1.view = m.view ∧
    (m.update msg).1.quitting = true := by
  refine ⟨?_, update_keeps_quitting m msg h⟩
  simp [BatchJobMetricsUI.update, BatchJobMetricsUI.view, h]

/-- Witness for the amended C2 at the concrete quitting state. -/
theorem quitting_display_frozen_amended_witness :
    (sampleUIQuitting.update TeaMsg.spinnerTick).1.view = sampleUIQuitting.view ∧
    (sampleUIQuitting.update TeaMsg.other).1.quitting = true :=
  ⟨(quitting_display_frozen_amended sampleUIQuitting TeaMsg.other rfl).1,
   (quitting_display_frozen_amended sampleUIQuitting TeaMsg.other rfl).2⟩

/-- C3: the quitting flag is monotonic: whatever message Update processes
from a state with quitting set, the returned state still has quitting set;
no transition resets it. -/
theorem quitting_is_monotonic (m : BatchJobMetricsUI) (msg : TeaMsg)
    (h : m.quitting = true) : (m.update msg).1.quitting = true :=
  update_keeps_quitting m msg h

/-- Witness for C3 at the concrete quitting state and a snapshot message. -/
theorem quitting_is_monotonic_witness :
    sampleUIQuitting.quitting = true ∧
    (sampleUIQuitting.update
        (TeaMsg.metrics (sampleEnvelope sampleJobRunning))).1.quitting = true :=
  ⟨rfl, quitting_is_monotonic sampleUIQuitting
    (TeaMsg.metrics (sampleEnvelope sampleJobRunning)) rfl⟩

/-- C4: the header shows the spinner frame while still running; once
quitting, it shows the success triple-glyph when the snapshot is complete
and the failure triple-glyph when it is failed (the flags being mutually
exclusive); and a terminal snapshot delivered to Update still reaches the
state — it is stored as current with quitting set — so the final frame's
header glyph reflects that last snapshot. -/
theorem view_header_reflects_terminal_state (m : BatchJobMetricsUI)
    (hex : ¬(m.current.Complete = true ∧ m.current.Failed = true)) :
    (m.quitting = false → m.view.header = HeaderGlyph.spin m.spinner.viewFrame) ∧
    (m.quitting = true → m.current.Complete = true →
      m.view.header = HeaderGlyph.success) ∧
    (m.quitting = true → m.current.Failed = true →
      m.view.header = HeaderGlyph.failure) ∧
    (∀ mt job, lookupTickJob m.jobID mt = some job →
      (job.Complete || job.Failed) = true →
      (m.update (TeaMsg.metrics mt)).1.current = job ∧
      (m.update (TeaMsg.metrics mt)).1.quitting = true ∧
      (m.update (TeaMsg.metrics mt)).1.view.header =
        (if job.Complete = true then HeaderGlyph.success else HeaderGlyph.failure)) := by
  refine ⟨?_, ?_, ?_, ?_⟩
  · intro hq
    simp [BatchJobMetricsUI.view, hq]
  · intro hq hc
    simp [BatchJobMetricsUI.view, hq, hc]
  · intro hq hf
    have hc : m.current.Complete = false := by
      cases h : m.current.Complete
      · rfl
      · exact absurd ⟨h, hf⟩ hex
    simp [BatchJobMetricsUI.view, hq, hc, hf]
  · intro mt job hl ht
    obtain ⟨⟨bjs⟩⟩ := mt
    cases bjs with
    | none => simp [lookupTickJob] at hl
    | some bj =>
      simp only [lookupTickJob] at hl
      cases hcj : job.Complete with
      | true =>
        simp [BatchJobMetricsUI.update, hl, ht, BatchJobMetricsUI.view, hcj]
      | false =>
        have hfj : job.Failed = true := by simpa [hcj] using ht
        simp [BatchJobMetricsUI.update, hl, ht, BatchJobMetricsUI.view, hcj, hfj]

/-- Witness for C4 at the concrete quitting state: the header shows the
success glyphs, and delivering the completed snapshot stores it with the
success glyph on the resulting frame. -/
theorem view_header_reflects_terminal_state_witness :
    sampleUIQuitting.view.header = HeaderGlyph.success ∧
    (sampleUIQuitting.update
        (TeaMsg.metrics (sampleEnvelope sampleJobComplete))).1.view.header =
      HeaderGlyph.success := by
  have h := view_header_reflects_terminal_state sampleUIQuitting (by decide)
  refine ⟨h.2.1 rfl rfl, ?_⟩
  have h4 := h.2.2.2 (sampleEnvelope sampleJobComplete) sampleJobComplete
    (by decide) (by decide)
  exact h4.2.2.trans (if_pos (by decide))

/-- C5: for a replication snapshot, the Throughput and IOPs rows appear in
the rendered body if and only if the elapsed time LastUpdate - StartTime is
strictly positive, and when they appear they carry exactly
10^9 * bytesTransferred / elapsedNanoseconds (bytes per second) and
10^9 * objects / elapsedNanoseconds (objects per second); with non-positive
elapsed time the rows are omitted entirely and no division happens. -/
theorem throughput_rows_iff_positive_elapsed (m : BatchJobMetricsUI)
    (hrep : m.current.JobType = batchJobReplicate) :
    (∀ c : Cell, ("Throughput: ", c) ∈ m.view.rows ↔
      (0 < m.current.LastUpdate - m.current.StartTime ∧
        c = Cell.rat ((10 ^ 9 * m.current.Replicate.BytesTransferred : ℚ) /
          ((m.current.LastUpdate - m.current.StartTime : Int) : ℚ)))) ∧
    (∀ c : Cell, ("IOPs: ", c) ∈ m.view.rows ↔
      (0 < m.current.LastUpdate - m.current.StartTime ∧
        c = Cell.rat ((10 ^ 9 * m.current.Replicate.Objects : ℚ) /
          ((m.current.LastUpdate - m.current.StartTime : Int) : ℚ)))) := by
  constructor <;> intro c <;>
    by_cases he : 0 < m.current.LastUpdate - m.current.StartTime <;>
      simp [BatchJobMetricsUI.view, hrep, he]

/-- Witness for C5: at 104857600 bytes over ten seconds the Throughput row
carries exactly 10 MiB/s (10485760 = 10 * 2^20 bytes per second); at zero
elapsed time no Throughput row is rendered. -/
theorem throughput_rows_iff_positive_elapsed_witness :
    ("Throughput: ", Cell.rat (10 * 2 ^ 20)) ∈ sampleUIRunning.view.rows ∧
    ("Throughput: ", Cell.rat 0) ∉ sampleUIZeroElapsed.view.rows := by
  constructor
  · refine ((throughput_rows_iff_positive_elapsed sampleUIRunning rfl).1
      (Cell.rat (10 * 2 ^ 20))).mpr ⟨by decide, ?_⟩
    have hval : ((10 ^ 9 * sampleUIRunning.current.Replicate.BytesTransferred : ℚ) /
        ((sampleUIRunning.current.LastUpdate - sampleUIRunning.current.StartTime : Int) : ℚ)) =
        10 * 2 ^ 20 := by
      simp only [sampleUIRunning, sampleJobRunning, sampleReplicate]
      push_cast
      norm_num
    rw [hval]
  · intro hmem
    have h := ((throughput_rows_iff_positive_elapsed sampleUIZeroElapsed rfl).1
      (Cell.rat 0)).mp hmem
    exact absurd h.1 (by decide)

/-- C8 (counterexample): the claim fails on the code. At a concrete
replication snapshot with five objects the full rendered body is computed
below: the Versions row carries Cell.int 5, the very objects counter shown
on the Objects row (View passes m.current.Replicate.Objects to both rows),
so the displayed version count is not a quantity distinct from the object
count. -/
theorem versions_row_shows_objects_count_counterexample :
    sampleUIZeroElapsed.view.rows =
      [("JobType: ", Cell.str "replicate"),
       ("Objects: ", Cell.int 5),
       ("Versions: ", Cell.int 5),
       ("FailedObjects: ", Cell.int 1),
       ("Transferred: ", Cell.int 104857600),
       ("Elapsed: ", Cell.int 0),
       ("CurrObjName: ", Cell.str "obj-7")] := by
  decide

/-- C8 (amended): for every replication snapshot the body starts with the
job-type, object-count, version-count and failed-object-count rows, in that
order, where the Versions row carries the same objects counter as the
Objects row (the snapshot carries no separate versions quantity). -/
theorem replicate_body_rows_amended (m : BatchJobMetricsUI)
    (hrep : m.current.JobType = batchJobReplicate) :
    m.view.rows.take 4 =
      [("JobType: ", Cell.str m.current.JobType),
       ("Objects: ", Cell.int m.current.Replicate.Objects),
       ("Versions: ", Cell.int m.current.Replicate.Objects),
       ("FailedObjects: ", Cell.int m.current.Replicate.ObjectsFailed)] := by
  simp [BatchJobMetricsUI.view, hrep]

/-- Witness for the amended C8 at the concrete zero-elapsed snapshot. -/
theorem replicate_body_rows_amended_witness :
    sampleUIZeroElapsed.view.rows.take 4 =
      [("JobType: ", Cell.str "replicate"),
       ("Objects: ", Cell.int 5),
       ("Versions: ", Cell.int 5),
       ("FailedObjects: ", Cell.int 1)] :=
  replicate_body_rows_amended sampleUIZeroElapsed rfl

/-- C9: a snapshot whose job-type tag is not the replication type renders no
body rows at all — only the header — and View is a total function, so
rendering still succeeds. -/
theorem unknown_jobtype_renders_header_only (m : BatchJobMetricsUI)
    (h : m.current.JobType ≠ batchJobReplicate) : m.view.rows = [] := by
  simp [BatchJobMetricsUI.view, h]

/-- Witness for C9 at a concrete snapshot tagged with an unknown job type. -/
theorem unknown_jobtype_renders_header_only_witness :
    sampleUIUnknown.view.rows = [] :=
  unknown_jobtype_renders_header_only sampleUIUnknown (by decide)

/-- C10: a key message other than ctrl+c, and any message outside the three
handled classes, leaves the state completely unchanged — the very same
record is returned — and issues no command at all (in particular no quit). -/
theorem unhandled_messages_leave_state_unchanged (m : BatchJobMetricsUI)
    (s : String) (hs : s ≠ "ctrl+c") :
    m.update (TeaMsg.key s) = (m, none) ∧ m.update TeaMsg.other = (m, none) := by
  refine ⟨?_, rfl⟩
  simp [BatchJobMetricsUI.update, hs]

/-- Witness for C10 at a concrete state and the key "q". -/
theorem unhandled_messages_leave_state_unchanged_witness :
    sampleUIRunning.update (TeaMsg.key "q") = (sampleUIRunning, none) ∧
    sampleUIRunning.update TeaMsg.other = (sampleUIRunning, none) :=
  unhandled_messages_leave_state_unchanged sampleUIRunning "q" (by decide)

/-- C6: the describe step aborts fatally exactly on errors other than the
XMinioAdminNoSuchJob code: a nil error proceeds silently, the
XMinioAdminNoSuchJob code proceeds with the informational notice shown
precisely in interactive (non-JSON) mode, and every other error code is
surfaced fatally. -/
theorem describe_error_handling (json : Bool) :
    resolveBatchJob none json = ResolveOutcome.proceed false ∧
    resolveBatchJob (some "XMinioAdminNoSuchJob") json =
      ResolveOutcome.proceed (!json) ∧
    (∀ code, code ≠ "XMinioAdminNoSuchJob" →
      resolveBatchJob (some code) json = ResolveOutcome.fatal code) := by
  refine ⟨by simp [resolveBatchJob, toErrorResponseCode], ?_, ?_⟩
  · simp [resolveBatchJob, toErrorResponseCode]
  · intro code hc
    simp [resolveBatchJob, toErrorResponseCode, hc]

/-- Witness for C6: in structured mode the job-not-found code proceeds with
the notice suppressed, while a different error code aborts fatally. -/
theorem describe_error_handling_witness :
    resolveBatchJob (some "XMinioAdminNoSuchJob") true =
      ResolveOutcome.proceed false ∧
    resolveBatchJob (some "AccessDenied") true =
      ResolveOutcome.fatal "AccessDenied" :=
  ⟨(describe_error_handling true).2.1,
   (describe_error_handling true).2.2 "AccessDenied" (by decide)⟩

/-- Helper: the executable errors.Is traversal agrees with the cancellation
predicate. -/
theorem errorsIsCanceled_eq_true_iff (e : GoErr) :
    errorsIsCanceled e = true ↔ IsCancellation e := by
  induction e with
  | canceled =>
    exact ⟨fun _ => IsCancellation.canceled, fun _ => rfl⟩
  | wrap e ih =>
    rw [show errorsIsCanceled (GoErr.wrap e) = errorsIsCanceled e from rfl, ih]
    constructor
    · exact IsCancellation.wrap
    · intro h
      cases h with
      | wrap h => exact h
  | plain s =>
    constructor
    · intro h
      exact absurd h (by simp [errorsIsCanceled])
    · intro h
      cases h

/-- C7: the goroutine surfaces a feed error fatally if and only if the
Metrics call returned a non-nil error that neither is nor wraps
context.Canceled; a cancellation-caused error (including one wrapping the
sentinel) is swallowed as the expected shutdown path. -/
theorem feed_error_fatal_iff_not_cancellation (e : Option GoErr) :
    feedErrorFatal e = true ↔ ∃ err, e = some err ∧ ¬IsCancellation err := by
  cases e with
  | none => simp [feedErrorFatal]
  | some err =>
    simp [feedErrorFatal, ← errorsIsCanceled_eq_true_iff]
